import Mathlib

/-!
Shallow embedding of the plasma-nm editor/widget code:

* `src/editor/main.cpp` — the editor `main` entry point and the
  `WireGuardSettingWidget` (validity flags, field validation slots,
  loadConfig endpoint parsing, setting() serialization).
* `src/libs/editor/settings/bridgewidget.cpp` — `BridgeWidget`
  (loadConfig/setting round trip, populateBridges, isValid).
* `src/active/setting/networkmodel.cpp` — `NetworkModel`
  (constructor item list, count, rowCount).

Qt strings are modelled as Lean `String`s, except where character-level
splitting matters (the WireGuard endpoint parsing), where `List Char` is
used with split functions reproducing `QString::split` with its default
`KeepEmptyParts` behaviour.  Calls into validator objects living outside
the given sources are abstracted as boolean acceptance functions, exactly
as the calling code only observes `validate(...) == QValidator::Acceptable`.
-/

namespace PlasmaNM

/-! ### WireGuardSettingWidget validity flags (src/editor/main.cpp) -/

/-- The five validity flags of `WireGuardSettingWidget::Private`
(`addressValid`, `privateKeyValid`, `publicKeyValid`, `allowedIpsValid`,
`endpointValid`). -/
structure WireGuardFlags where
  addressValid : Bool
  privateKeyValid : Bool
  publicKeyValid : Bool
  allowedIpsValid : Bool
  endpointValid : Bool
deriving Repr, DecidableEq

namespace WireGuardSettingWidget

/-- `WireGuardSettingWidget::isValid`: the conjunction of the five flags. -/
def isValid (d : WireGuardFlags) : Bool :=
  d.addressValid
    && d.privateKeyValid
    && d.publicKeyValid
    && d.allowedIpsValid
    && d.endpointValid

/-- The two address validators installed on the IPv4/IPv6 address line
edits (`SimpleIpV4AddressValidator` / `SimpleIpV6AddressValidator`, style
`WithCidr`), abstracted to their acceptance behaviour: the widget code
only observes `validate(value, pos) == QValidator::Acceptable`. -/
structure AddressValidators where
  ip4Accept : String → Bool
  ip6Accept : String → Bool

/-- `WireGuardSettingWidget::checkAddressValid`: computes the new value
of `d->addressValid` from the display texts of the IPv4 and IPv6 address
line edits. -/
def checkAddressValid (v : AddressValidators) (ip4Text ip6Text : String) : Bool :=
  let ip4valid := v.ip4Accept ip4Text
  let ip4present := !ip4Text.isEmpty
  let ip6valid := v.ip6Accept ip6Text
  let ip6present := !ip6Text.isEmpty
  (ip4valid && ip6valid) || (ip4valid && !ip6present) || (!ip4present && ip6valid)

/-- The three validators consulted by `checkEndpointValid` (the FQDN
regex validator, `SimpleIpV4AddressValidator`, `SimpleIpV6AddressValidator`),
abstracted to their acceptance behaviour. -/
structure EndpointValidators where
  fqdnAccept : String → Bool
  ip4Accept : String → Bool
  ip6Accept : String → Bool

/-- `WireGuardSettingWidget::checkEndpointValid`: computes the new value
of `d->endpointValid` from the display texts of the endpoint address and
endpoint port line edits. -/
def checkEndpointValid (v : EndpointValidators) (addressValue portString : String) : Bool :=
  let addressValid := v.fqdnAccept addressValue
                        || v.ip4Accept addressValue
                        || v.ip6Accept addressValue
  let bothEmpty := addressValue.isEmpty && portString.isEmpty
  let portValid := !portString.isEmpty
  bothEmpty || (addressValid && portValid)

end WireGuardSettingWidget

/-! ### main (src/editor/main.cpp) -/

/-- What `main` does with the `ConnectionEditor` after parsing the
command line: either `editor->editConnection(uuid)` or `editor->show()`. -/
inductive EditorAction where
  | editConnection (uuid : String)
  | show
deriving Repr, DecidableEq

/-- `main`: if the parsed positional argument list is non-empty, call
`editConnection(args->arg(0))`, otherwise call `show()`. -/
def mainAction (args : List String) : EditorAction :=
  match args with
  | [] => .show
  | a :: _ => .editConnection a

/-! ### NetworkModel (src/active/setting/networkmodel.cpp) -/

/-- A `NetworkManager::Device::Type` as observed by the `NetworkModel`
constructor: the three types it compares against, plus a catch-all for
every other device type. -/
inductive NMDeviceType where
  | Ethernet
  | Modem
  | Wifi
  | OtherType
deriving Repr, DecidableEq

/-- The part of a `NetworkManager::Device` the constructor reads: its
type and its uni path. -/
structure Device where
  type : NMDeviceType
  uni : String
deriving Repr, DecidableEq

/-- `NetworkModelItem::Type`. -/
inductive ItemType where
  | Ethernet
  | Modem
  | Wifi
  | Vpn
deriving Repr, DecidableEq

/-- A `NetworkModelItem` as created by the `NetworkModel` constructor:
a type and a path argument. -/
structure NetworkModelItem where
  itemType : ItemType
  path : String
deriving Repr, DecidableEq

namespace NetworkModel

/-- One iteration of the device loop in the `NetworkModel` constructor:
for an Ethernet, Modem or Wifi device a `NetworkModelItem` of the
matching type is created (`nonVirtualDevice` is set) and pushed back;
for any other device type nothing happens. -/
def deviceStep (items : List NetworkModelItem) (device : Device) : List NetworkModelItem :=
  match device.type with
  | .Ethernet => items ++ [⟨.Ethernet, device.uni⟩]
  | .Modem => items ++ [⟨.Modem, device.uni⟩]
  | .Wifi => items ++ [⟨.Wifi, device.uni⟩]
  | .OtherType => items

/-- The `m_networkItems` list as built by the `NetworkModel` constructor
from the device enumeration: the device loop followed by the VPN item
appended at the end (`NetworkModelItem(NetworkModelItem::Vpn, QString())`). -/
def networkItems (devices : List Device) : List NetworkModelItem :=
  devices.foldl deviceStep [] ++ [⟨.Vpn, ""⟩]

/-- `NetworkModel::count`: `m_networkItems.count()`. -/
def count (items : List NetworkModelItem) : Nat :=
  items.length

/-- `NetworkModel::rowCount`: ignores its parent index and returns
`m_networkItems.count()`. -/
def rowCount (items : List NetworkModelItem) : Nat :=
  items.length

/-- The item a single device contributes to `m_networkItems`
(`none` for device types other than Ethernet, Modem, Wifi). -/
def deviceItem (device : Device) : Option NetworkModelItem :=
  match device.type with
  | .Ethernet => some ⟨.Ethernet, device.uni⟩
  | .Modem => some ⟨.Modem, device.uni⟩
  | .Wifi => some ⟨.Wifi, device.uni⟩
  | .OtherType => none

/-- Whether a device is one of the three types the constructor keeps. -/
def isKeptDevice (device : Device) : Bool :=
  device.type == .Ethernet || device.type == .Modem || device.type == .Wifi

end NetworkModel

/-! ### BridgeWidget::isValid (src/libs/editor/settings/bridgewidget.cpp) -/

/-- The fields of a `NetworkManager::BridgeSetting` that `BridgeWidget`
reads and writes. -/
structure BridgeSetting where
  interfaceName : String
  agingTime : Int
  stp : Bool
  priority : Int
  forwardDelay : Int
  helloTime : Int
  maxAge : Int
deriving Repr, DecidableEq

/-- The state of the `BridgeWidget` form controls: the interface-name
line edit, the aging-time spin box, the checkable STP group box and the
four STP-parameter spin boxes. -/
structure BridgeUi where
  ifaceName : String
  agingTime : Int
  stpChecked : Bool
  priority : Int
  forwardDelay : Int
  helloTime : Int
  maxAge : Int
deriving Repr, DecidableEq

namespace BridgeWidget

/-- `BridgeWidget::isValid`: interface-name field non-empty and the
bridges list widget has at least one item.  `ifaceName` is the text of
`m_ui->ifaceName`; `bridgesCount` is `m_ui->bridges->count()`. -/
def isValid (ifaceName : String) (bridgesCount : Nat) : Bool :=
  !ifaceName.isEmpty && bridgesCount > 0

/-- `BridgeWidget::loadConfig`: copies interface name, aging time and the
STP flag from the bridge setting into the form; only when STP is set does
it also copy priority, forward delay, hello time and max age (otherwise
those controls keep their previous values). -/
def loadConfig (s : BridgeSetting) (ui : BridgeUi) : BridgeUi :=
  let ui := { ui with
    ifaceName := s.interfaceName
    agingTime := s.agingTime
    stpChecked := s.stp }
  if s.stp then
    { ui with
      priority := s.priority
      forwardDelay := s.forwardDelay
      helloTime := s.helloTime
      maxAge := s.maxAge }
  else
    ui

/-- `BridgeWidget::setting`: builds a fresh `NetworkManager::BridgeSetting`
(`defaults` stands for the default-constructed setting, owned by the
external NetworkManagerQt library), sets interface name, aging time and
the STP flag from the form, and only when the STP group is checked also
sets the four STP parameters. -/
def setting (defaults : BridgeSetting) (ui : BridgeUi) : BridgeSetting :=
  let s := { defaults with
    interfaceName := ui.ifaceName
    agingTime := ui.agingTime
    stp := ui.stpChecked }
  if ui.stpChecked then
    { s with
      priority := ui.priority
      forwardDelay := ui.forwardDelay
      helloTime := ui.helloTime
      maxAge := ui.maxAge }
  else
    s

end BridgeWidget

/-- The part of a connection's `NetworkManager::ConnectionSettings` that
`BridgeWidget::populateBridges` reads: the master field, the slave type,
and the printable name of the connection type
(`typeAsString(connectionType())`). -/
structure ConnectionSettings where
  master : String
  slaveType : String
  typeName : String
deriving Repr, DecidableEq

/-- A connection as listed by `NetworkManager::listConnections`:
its name, its uuid, and its settings. -/
structure Connection where
  name : String
  uuid : String
  settings : ConnectionSettings
deriving Repr, DecidableEq

/-- An entry of the `m_ui->bridges` list widget: the label text and the
`Qt::UserRole` data attached to the item. -/
structure SlaveItem where
  label : String
  userData : String
deriving Repr, DecidableEq

namespace BridgeWidget

/-- The identity of a `BridgeWidget`: `m_uuid` (master uuid), `m_id`
(master id) and the slave type returned by `type()`. -/
structure Ids where
  uuid : String
  id : String
  type : String
deriving Repr, DecidableEq

/-- The label `populateBridges` gives a slave item:
`QString("%1 (%2)").arg(connection->name()).arg(...typeAsString(...))`. -/
def slaveLabel (c : Connection) : String :=
  c.name ++ " (" ++ c.settings.typeName ++ ")"

/-- `BridgeWidget::populateBridges`: clears the bridges list, then for
each listed connection adds a slave item when the connection's master
matches `m_uuid` (by uuid) or, if `m_id` is non-empty, matches `m_id`
(by name), and its slave type equals `type()`; the item's `Qt::UserRole`
data is the connection's uuid. -/
def populateBridges (w : Ids) (conns : List Connection) : List SlaveItem :=
  conns.foldl
    (fun items c =>
      let master := c.settings.master
      let isSlave := master == w.uuid || (!w.id.isEmpty && master == w.id)
      if isSlave && (c.settings.slaveType == w.type) then
        items ++ [⟨slaveLabel c, c.uuid⟩]
      else
        items)
    []

/-- The slave test of one `populateBridges` iteration, named: the
connection's master matches `m_uuid`, or `m_id` is non-empty and the
master matches `m_id`; and the slave type equals `type()`. -/
def isSlaveEntry (w : Ids) (c : Connection) : Bool :=
  (c.settings.master == w.uuid || (!w.id.isEmpty && c.settings.master == w.id)) &&
    (c.settings.slaveType == w.type)

/-- The list item one kept connection contributes, named. -/
def slaveItemOf (c : Connection) : SlaveItem :=
  ⟨slaveLabel c, c.uuid⟩

end BridgeWidget

/-! ### WireGuardSettingWidget::loadConfig endpoint parsing
(src/editor/main.cpp)

The endpoint string is taken apart with `QString::split`, whose default
`KeepEmptyParts` behaviour is reproduced here on `List Char`:
splitting always yields at least one part, and a string in which the
separator does not occur yields exactly the one-element list holding the
whole string. -/

/-- `QString::contains` with a one-character pattern. -/
def containsChar (sep : Char) : List Char → Bool
  | [] => false
  | c :: rest => c == sep || containsChar sep rest

/-- `QString::contains` with a two-character pattern `⟨a, b⟩`
(here `"]:"`). -/
def containsSeq2 (a b : Char) : List Char → Bool
  | [] => false
  | [_] => false
  | c :: d :: rest => (c == a && d == b) || containsSeq2 a b (d :: rest)

/-- `QString::split` with a one-character separator and the default
`KeepEmptyParts` behaviour. -/
def splitOnChar (sep : Char) : List Char → List (List Char)
  | [] => [[]]
  | c :: rest =>
    if c == sep then
      [] :: splitOnChar sep rest
    else
      match splitOnChar sep rest with
      | [] => [[c]]
      | h :: t => (c :: h) :: t

/-- `QString::split` with a two-character separator `⟨a, b⟩` and the
default `KeepEmptyParts` behaviour. -/
def splitOnSeq2 (a b : Char) : List Char → List (List Char)
  | [] => [[]]
  | [c] => [[c]]
  | c :: d :: rest =>
    if c == a && d == b then
      [] :: splitOnSeq2 a b rest
    else
      match splitOnSeq2 a b (d :: rest) with
      | [] => [[c]]
      | h :: t => (c :: h) :: t

namespace WireGuardSettingWidget

/-- The `endpointList` computed by `WireGuardSettingWidget::loadConfig`
from the stored endpoint string: split on `"]:"` when that substring is
present, on `":"` otherwise. -/
def endpointList (stored : List Char) : List (List Char) :=
  if containsSeq2 ']' ':' stored then
    splitOnSeq2 ']' ':' stored
  else
    splitOnChar ':' stored

/-- The pair of texts `loadConfig` writes into the endpoint address and
endpoint port line edits: `endpointList[0].remove("[")` and
`endpointList[1]`.  The indexing is partial: `none` models the case in
which `endpointList[1]` is an out-of-bounds access. -/
def loadEndpointFields (stored : List Char) : Option (List Char × List Char) :=
  match endpointList stored with
  | e0 :: e1 :: _ => some (e0.filter (fun c => c != '['), e1)
  | _ => none

end WireGuardSettingWidget

/-! ### WireGuardSettingWidget::setting data map (src/editor/main.cpp) -/

/-- An `NMStringMap`, modelled extensionally by its lookup function. -/
abbrev NMStringMap : Type := String → Option String

namespace WireGuardSettingWidget

/-- Data key `NM_WG_KEY_ADDR_IP4` of the WireGuard VPN service. -/
def NM_WG_KEY_ADDR_IP4 : String := "local-ip4"

/-- Data key `NM_WG_KEY_ADDR_IP6` of the WireGuard VPN service. -/
def NM_WG_KEY_ADDR_IP6 : String := "local-ip6"

/-- Data key `NM_WG_KEY_PRIVATE_KEY` of the WireGuard VPN service. -/
def NM_WG_KEY_PRIVATE_KEY : String := "private-key"

/-- Data key `NM_WG_KEY_PUBLIC_KEY` of the WireGuard VPN service. -/
def NM_WG_KEY_PUBLIC_KEY : String := "public-key"

/-- Data key `NM_WG_KEY_ALLOWED_IPS` of the WireGuard VPN service. -/
def NM_WG_KEY_ALLOWED_IPS : String := "allowed-ips"

/-- Data key `NM_WG_KEY_ENDPOINT` of the WireGuard VPN service. -/
def NM_WG_KEY_ENDPOINT : String := "endpoint"

/-- The current texts of the `WireGuardSettingWidget` form fields read by
`setting()`. -/
structure UiFields where
  addressIPv4 : String
  addressIPv6 : String
  privateKey : String
  publicKey : String
  allowedIPs : String
  endpointAddress : String
  endpointPort : String

/-- `WireGuardSettingWidget::setProperty`: insert the key with the value
when the value is non-empty, remove the key otherwise. -/
def setProperty (data : NMStringMap) (key value : String) : NMStringMap :=
  if !value.isEmpty then
    fun k => if k = key then some value else data k
  else
    fun k => if k = key then none else data k

/-- The data map after the five `setProperty` calls of `setting()` on
the required keys, starting from the stored `d->setting->data()`. -/
def dataAfterRequired (stored : NMStringMap) (ui : UiFields) : NMStringMap :=
  setProperty
    (setProperty
      (setProperty
        (setProperty
          (setProperty stored NM_WG_KEY_ADDR_IP4 ui.addressIPv4)
          NM_WG_KEY_ADDR_IP6 ui.addressIPv6)
        NM_WG_KEY_PRIVATE_KEY ui.privateKey)
      NM_WG_KEY_PUBLIC_KEY ui.publicKey)
    NM_WG_KEY_ALLOWED_IPS ui.allowedIPs

/-- The data map passed to `setting.setData(data)` at the end of
`WireGuardSettingWidget::setting()`: the five required keys, and then the
endpoint, written only when the endpoint address field is non-empty and
bracketed when the address contains a `':'`. -/
def settingData (stored : NMStringMap) (ui : UiFields) : NMStringMap :=
  let data := dataAfterRequired stored ui
  if !ui.endpointAddress.isEmpty then
    if ui.endpointAddress.contains ':' then
      setProperty data NM_WG_KEY_ENDPOINT
        ("[" ++ ui.endpointAddress.trim ++ "]:" ++ ui.endpointPort.trim)
    else
      setProperty data NM_WG_KEY_ENDPOINT
        (ui.endpointAddress.trim ++ ":" ++ ui.endpointPort.trim)
  else
    data

end WireGuardSettingWidget

end PlasmaNM

namespace PlasmaNM

/-- C1: `WireGuardSettingWidget::isValid` is true iff all five validity
flags are true; any false flag makes it false. -/
theorem wireguard_isValid_iff_all_flags (d : WireGuardFlags) :
    WireGuardSettingWidget.isValid d = true ↔
      d.addressValid = true ∧ d.privateKeyValid = true ∧
      d.publicKeyValid = true ∧ d.allowedIpsValid = true ∧
      d.endpointValid = true := by
  simp [WireGuardSettingWidget.isValid, Bool.and_eq_true, and_assoc]

/-- C4: with at least one positional argument, `main` calls
`editConnection` on the first argument and does not call `show`; with no
positional argument it calls `show` and does not call `editConnection`. -/
theorem main_dispatch (args : List String) :
    (∀ a rest, args = a :: rest →
      mainAction args = EditorAction.editConnection a ∧
      mainAction args ≠ EditorAction.show) ∧
    (args = [] →
      mainAction args = EditorAction.show ∧
      ∀ u, mainAction args ≠ EditorAction.editConnection u) := by
  constructor
  · intro a rest h
    subst h
    exact ⟨rfl, by simp [mainAction]⟩
  · intro h
    subst h
    exact ⟨rfl, by intro u; simp [mainAction]⟩

/-- Closed witness for `main_dispatch` at the concrete argument lists
`["abc"]` and `[]`. -/
theorem main_dispatch_witness :
    mainAction ["abc"] = EditorAction.editConnection "abc" ∧
    mainAction [] = EditorAction.show :=
  ⟨((main_dispatch ["abc"]).1 "abc" [] rfl).1, ((main_dispatch []).2 rfl).1⟩

/-- Helper: a string's `isEmpty` flag is false iff the string is not
empty. -/
theorem string_isEmpty_eq_false (s : String) : s.isEmpty = false ↔ s ≠ "" := by
  constructor
  · intro h he
    subst he
    have ht : String.isEmpty "" = true := (String.isEmpty_iff _).mpr rfl
    rw [h] at ht
    exact absurd ht (by decide)
  · intro h
    cases hse : s.isEmpty with
    | false => rfl
    | true => exact absurd ((String.isEmpty_iff _).mp hse) h

/-- C3: after `checkAddressValid`, the address-valid flag is true iff
both address fields are accepted, or the IPv4 field is accepted and the
IPv6 field empty, or the IPv4 field is empty and the IPv6 field
accepted; in particular two empty fields give false (given that the
with-CIDR validators do not accept the empty string), and a non-empty
unaccepted field gives false. -/
theorem wireguard_checkAddressValid_spec
    (v : WireGuardSettingWidget.AddressValidators) (ip4 ip6 : String)
    (h4 : v.ip4Accept "" = false) (h6 : v.ip6Accept "" = false) :
    (WireGuardSettingWidget.checkAddressValid v ip4 ip6 = true ↔
      (v.ip4Accept ip4 = true ∧ v.ip6Accept ip6 = true) ∨
      (v.ip4Accept ip4 = true ∧ ip6 = "") ∨
      (ip4 = "" ∧ v.ip6Accept ip6 = true)) ∧
    (ip4 = "" → ip6 = "" →
      WireGuardSettingWidget.checkAddressValid v ip4 ip6 = false) ∧
    (ip4 ≠ "" → v.ip4Accept ip4 = false →
      WireGuardSettingWidget.checkAddressValid v ip4 ip6 = false) ∧
    (ip6 ≠ "" → v.ip6Accept ip6 = false →
      WireGuardSettingWidget.checkAddressValid v ip4 ip6 = false) := by
  have hiff : WireGuardSettingWidget.checkAddressValid v ip4 ip6 = true ↔
      (v.ip4Accept ip4 = true ∧ v.ip6Accept ip6 = true) ∨
      (v.ip4Accept ip4 = true ∧ ip6 = "") ∨
      (ip4 = "" ∧ v.ip6Accept ip6 = true) := by
    simp [WireGuardSettingWidget.checkAddressValid, String.isEmpty_iff, or_assoc]
  refine ⟨hiff, ?_, ?_, ?_⟩
  · intro hp4 hp6
    cases hc : WireGuardSettingWidget.checkAddressValid v ip4 ip6 with
    | false => rfl
    | true =>
      subst hp4; subst hp6
      rcases hiff.mp hc with ⟨ha, _⟩ | ⟨ha, _⟩ | ⟨_, hb⟩
      · rw [h4] at ha; exact absurd ha (by decide)
      · rw [h4] at ha; exact absurd ha (by decide)
      · rw [h6] at hb; exact absurd hb (by decide)
  · intro hne hfa
    cases hc : WireGuardSettingWidget.checkAddressValid v ip4 ip6 with
    | false => rfl
    | true =>
      rcases hiff.mp hc with ⟨ha, _⟩ | ⟨ha, _⟩ | ⟨hip, _⟩
      · rw [hfa] at ha; exact absurd ha (by decide)
      · rw [hfa] at ha; exact absurd ha (by decide)
      · exact absurd hip hne
  · intro hne hfb
    cases hc : WireGuardSettingWidget.checkAddressValid v ip4 ip6 with
    | false => rfl
    | true =>
      rcases hiff.mp hc with ⟨_, hb⟩ | ⟨_, hip⟩ | ⟨_, hb⟩
      · rw [hfb] at hb; exact absurd hb (by decide)
      · exact absurd hip hne
      · rw [hfb] at hb; exact absurd hb (by decide)

/-- Closed witness for `wireguard_checkAddressValid_spec` with
never-accepting validators and two empty fields. -/
theorem wireguard_checkAddressValid_spec_witness :
    WireGuardSettingWidget.checkAddressValid ⟨fun _ => false, fun _ => false⟩ "" "" = false :=
  (wireguard_checkAddressValid_spec ⟨fun _ => false, fun _ => false⟩ "" "" rfl rfl).2.1 rfl rfl

/-- C2: after `checkEndpointValid`, the endpoint-valid flag is true iff
both endpoint fields are empty, or the address is accepted by the FQDN,
IPv4 or IPv6 validator and the port field is non-empty; an address
without a port, or a port whose address is empty (given that the three
validators do not accept the empty string), gives false. -/
theorem wireguard_checkEndpointValid_spec
    (v : WireGuardSettingWidget.EndpointValidators) (addr port : String)
    (hf : v.fqdnAccept "" = false) (h4 : v.ip4Accept "" = false)
    (h6 : v.ip6Accept "" = false) :
    (WireGuardSettingWidget.checkEndpointValid v addr port = true ↔
      (addr = "" ∧ port = "") ∨
      ((v.fqdnAccept addr = true ∨ v.ip4Accept addr = true ∨ v.ip6Accept addr = true) ∧
        port ≠ "")) ∧
    (addr ≠ "" → port = "" →
      WireGuardSettingWidget.checkEndpointValid v addr port = false) ∧
    (addr = "" → port ≠ "" →
      WireGuardSettingWidget.checkEndpointValid v addr port = false) := by
  have hiff : WireGuardSettingWidget.checkEndpointValid v addr port = true ↔
      (addr = "" ∧ port = "") ∨
      ((v.fqdnAccept addr = true ∨ v.ip4Accept addr = true ∨ v.ip6Accept addr = true) ∧
        port ≠ "") := by
    simp [WireGuardSettingWidget.checkEndpointValid, String.isEmpty_iff,
      string_isEmpty_eq_false, or_assoc]
  refine ⟨hiff, ?_, ?_⟩
  · intro hane hpe
    cases hc : WireGuardSettingWidget.checkEndpointValid v addr port with
    | false => rfl
    | true =>
      rcases hiff.mp hc with ⟨ha, _⟩ | ⟨_, hp⟩
      · exact absurd ha hane
      · exact absurd hpe hp
  · intro hae hpne
    cases hc : WireGuardSettingWidget.checkEndpointValid v addr port with
    | false => rfl
    | true =>
      subst hae
      rcases hiff.mp hc with ⟨_, hp⟩ | ⟨hacc, _⟩
      · exact absurd hp hpne
      · rcases hacc with ha | ha | ha
        · rw [hf] at ha; exact absurd ha (by decide)
        · rw [h4] at ha; exact absurd ha (by decide)
        · rw [h6] at ha; exact absurd ha (by decide)

/-- Closed witness for `wireguard_checkEndpointValid_spec` with
never-accepting validators, a filled address and an empty port. -/
theorem wireguard_checkEndpointValid_spec_witness :
    WireGuardSettingWidget.checkEndpointValid
      ⟨fun _ => false, fun _ => false, fun _ => false⟩ "a" "" = false :=
  (wireguard_checkEndpointValid_spec ⟨fun _ => false, fun _ => false, fun _ => false⟩
    "a" "" rfl rfl rfl).2.1 (by decide) rfl

/-- C8: `BridgeWidget::isValid` is true iff the interface-name field is
non-empty and the bridges list has at least one item. -/
theorem bridge_isValid_iff (ifaceName : String) (bridgesCount : Nat) :
    BridgeWidget.isValid ifaceName bridgesCount = true ↔
      ifaceName ≠ "" ∧ 0 < bridgesCount := by
  rw [BridgeWidget.isValid, Bool.and_eq_true, Bool.not_eq_true', decide_eq_true_iff,
    show (ifaceName.isEmpty = false) = ¬(ifaceName.isEmpty = true) by simp,
    String.isEmpty_iff]

/-- Helper: the device loop of the `NetworkModel` constructor appends
exactly the items contributed by the kept devices, in order. -/
theorem foldl_deviceStep_eq (devices : List Device) (acc : List NetworkModelItem) :
    devices.foldl NetworkModel.deviceStep acc =
      acc ++ devices.filterMap NetworkModel.deviceItem := by
  induction devices generalizing acc with
  | nil => simp
  | cons dev rest ih =>
    cases hdev : dev.type <;>
      simp [NetworkModel.deviceStep, NetworkModel.deviceItem, hdev, ih]

/-- Helper: the number of items contributed by the device loop is the
number of Ethernet/Modem/Wifi devices. -/
theorem length_filterMap_deviceItem (devices : List Device) :
    (devices.filterMap NetworkModel.deviceItem).length =
      devices.countP NetworkModel.isKeptDevice := by
  induction devices with
  | nil => rfl
  | cons dev rest ih =>
    cases hdev : dev.type <;>
      simp [NetworkModel.deviceItem, NetworkModel.isKeptDevice, hdev, ih, List.countP_cons]

/-- C5: the `NetworkModel` item list built at construction consists, in
device-enumeration order, of one item per Ethernet/Modem/Wifi device
followed by exactly one VPN item as the last element; `count` and
`rowCount` both equal the number of such devices plus one and are at
least one. -/
theorem networkModel_static_items (devices : List Device) :
    NetworkModel.networkItems devices =
      devices.filterMap NetworkModel.deviceItem ++ [⟨ItemType.Vpn, ""⟩] ∧
    (NetworkModel.networkItems devices).getLast? = some ⟨ItemType.Vpn, ""⟩ ∧
    NetworkModel.count (NetworkModel.networkItems devices) =
      devices.countP NetworkModel.isKeptDevice + 1 ∧
    NetworkModel.rowCount (NetworkModel.networkItems devices) =
      NetworkModel.count (NetworkModel.networkItems devices) ∧
    1 ≤ NetworkModel.count (NetworkModel.networkItems devices) := by
  refine ⟨?_, ?_, ?_, rfl, ?_⟩
  · rw [NetworkModel.networkItems, foldl_deviceStep_eq, List.nil_append]
  · rw [NetworkModel.networkItems]
    exact List.getLast?_concat _
  · rw [NetworkModel.networkItems, NetworkModel.count, foldl_deviceStep_eq, List.nil_append,
      List.length_append, length_filterMap_deviceItem, List.length_singleton]
  · rw [NetworkModel.networkItems, NetworkModel.count, List.length_append]
    simp

/-- C6: loading a bridge setting into the form and serializing it back
preserves the interface name, the aging time and the STP flag; when STP
is set the four STP parameters are preserved too, and when it is not set
they are not written from the loaded values (the serialized setting
keeps the default-constructed values). -/
theorem bridge_setting_roundTrip (defaults s : BridgeSetting) (ui : BridgeUi) :
    (BridgeWidget.setting defaults (BridgeWidget.loadConfig s ui)).interfaceName =
      s.interfaceName ∧
    (BridgeWidget.setting defaults (BridgeWidget.loadConfig s ui)).agingTime = s.agingTime ∧
    (BridgeWidget.setting defaults (BridgeWidget.loadConfig s ui)).stp = s.stp ∧
    (s.stp = true →
      (BridgeWidget.setting defaults (BridgeWidget.loadConfig s ui)).priority = s.priority ∧
      (BridgeWidget.setting defaults (BridgeWidget.loadConfig s ui)).forwardDelay =
        s.forwardDelay ∧
      (BridgeWidget.setting defaults (BridgeWidget.loadConfig s ui)).helloTime = s.helloTime ∧
      (BridgeWidget.setting defaults (BridgeWidget.loadConfig s ui)).maxAge = s.maxAge) ∧
    (s.stp = false →
      (BridgeWidget.setting defaults (BridgeWidget.loadConfig s ui)).priority =
        defaults.priority ∧
      (BridgeWidget.setting defaults (BridgeWidget.loadConfig s ui)).forwardDelay =
        defaults.forwardDelay ∧
      (BridgeWidget.setting defaults (BridgeWidget.loadConfig s ui)).helloTime =
        defaults.helloTime ∧
      (BridgeWidget.setting defaults (BridgeWidget.loadConfig s ui)).maxAge =
        defaults.maxAge) := by
  cases hstp : s.stp <;>
    simp [BridgeWidget.loadConfig, BridgeWidget.setting, hstp]

/-- Closed witness for `bridge_setting_roundTrip`: a setting with STP on
keeps its priority through the round trip. -/
theorem bridge_setting_roundTrip_witness :
    (BridgeWidget.setting ⟨"", 300, false, 32768, 15, 2, 20⟩
        (BridgeWidget.loadConfig ⟨"br0", 42, true, 7, 8, 9, 10⟩
          ⟨"", 0, false, 0, 0, 0, 0⟩)).priority = 7 :=
  ((bridge_setting_roundTrip ⟨"", 300, false, 32768, 15, 2, 20⟩
    ⟨"br0", 42, true, 7, 8, 9, 10⟩ ⟨"", 0, false, 0, 0, 0, 0⟩).2.2.2.1 rfl).1

/-- Helper: `populateBridges` written with its named step components. -/
theorem populateBridges_eq_foldl (w : BridgeWidget.Ids) (conns : List Connection) :
    BridgeWidget.populateBridges w conns =
      conns.foldl
        (fun items c =>
          if BridgeWidget.isSlaveEntry w c then
            items ++ [BridgeWidget.slaveItemOf c]
          else
            items)
        [] :=
  rfl

/-- Helper: the accumulator form of the `populateBridges` loop. -/
theorem populateBridges_foldl (w : BridgeWidget.Ids) (conns : List Connection)
    (acc : List SlaveItem) :
    conns.foldl
      (fun items c =>
        if BridgeWidget.isSlaveEntry w c then
          items ++ [BridgeWidget.slaveItemOf c]
        else
          items)
      acc =
    acc ++ (conns.filter (BridgeWidget.isSlaveEntry w)).map BridgeWidget.slaveItemOf := by
  induction conns generalizing acc with
  | nil => simp
  | cons c rest ih =>
    rw [List.foldl_cons, ih, List.filter_cons]
    cases hc : BridgeWidget.isSlaveEntry w c <;> simp [hc]

/-- C7: `populateBridges` lists exactly the connections whose master
field equals the widget's master uuid, or equals the widget's non-empty
master id, and whose slave type equals the widget's `type()`; item by
item, the `Qt::UserRole` data is the listed connection's uuid. -/
theorem populateBridges_spec (w : BridgeWidget.Ids) (conns : List Connection) :
    BridgeWidget.populateBridges w conns =
      (conns.filter
        (fun c =>
          decide ((c.settings.master = w.uuid ∨ (w.id ≠ "" ∧ c.settings.master = w.id)) ∧
            c.settings.slaveType = w.type))).map
        (fun c => ⟨BridgeWidget.slaveLabel c, c.uuid⟩) ∧
    (BridgeWidget.populateBridges w conns).map SlaveItem.userData =
      (conns.filter
        (fun c =>
          decide ((c.settings.master = w.uuid ∨ (w.id ≠ "" ∧ c.settings.master = w.id)) ∧
            c.settings.slaveType = w.type))).map
        Connection.uuid := by
  have hcond : ∀ c : Connection,
      BridgeWidget.isSlaveEntry w c =
      decide ((c.settings.master = w.uuid ∨ (w.id ≠ "" ∧ c.settings.master = w.id)) ∧
        c.settings.slaveType = w.type) := by
    intro c
    rw [Bool.eq_iff_iff]
    simp [BridgeWidget.isSlaveEntry, string_isEmpty_eq_false]
  have hfilter : conns.filter (BridgeWidget.isSlaveEntry w) =
      conns.filter
        (fun c =>
          decide ((c.settings.master = w.uuid ∨ (w.id ≠ "" ∧ c.settings.master = w.id)) ∧
            c.settings.slaveType = w.type)) :=
    List.filter_congr fun c _ => hcond c
  have hmain : BridgeWidget.populateBridges w conns =
      (conns.filter
        (fun c =>
          decide ((c.settings.master = w.uuid ∨ (w.id ≠ "" ∧ c.settings.master = w.id)) ∧
            c.settings.slaveType = w.type))).map
        (fun c => ⟨BridgeWidget.slaveLabel c, c.uuid⟩) := by
    rw [populateBridges_eq_foldl, populateBridges_foldl, List.nil_append, hfilter]
    rfl
  refine ⟨hmain, ?_⟩
  rw [hmain, List.map_map]
  rfl

/-- Helper: splitting never produces the empty list of parts
(`QString::split` with `KeepEmptyParts` always yields at least one part). -/
theorem splitOnChar_ne_nil (sep : Char) (s : List Char) : splitOnChar sep s ≠ [] := by
  cases s with
  | nil => simp [splitOnChar]
  | cons c rest =>
    simp only [splitOnChar]
    split
    · simp
    · split <;> simp

/-- Helper: a string without the second character of a two-character
pattern does not contain the pattern. -/
theorem containsSeq2_eq_false (a b : Char) (s : List Char)
    (h : containsChar b s = false) : containsSeq2 a b s = false := by
  induction s with
  | nil => rfl
  | cons c rest ih =>
    cases rest with
    | nil => rfl
    | cons d rest2 =>
      simp only [containsChar, Bool.or_eq_false_iff] at h
      have h2 : containsChar b (d :: rest2) = false := by
        simp only [containsChar, Bool.or_eq_false_iff]
        exact ⟨h.2.1, h.2.2⟩
      simp [containsSeq2, h.2.1, ih h2]

/-- Helper: splitting on an absent character returns the whole string as
the single part. -/
theorem splitOnChar_of_not_contains (sep : Char) (s : List Char)
    (h : containsChar sep s = false) : splitOnChar sep s = [s] := by
  induction s with
  | nil => rfl
  | cons c rest ih =>
    simp only [containsChar, Bool.or_eq_false_iff] at h
    simp only [splitOnChar]
    rw [if_neg (by rw [h.1]; exact Bool.false_ne_true), ih h.2]

/-- Helper: splitting always yields at least one part (length form). -/
theorem one_le_length_splitOnChar (sep : Char) (s : List Char) :
    1 ≤ (splitOnChar sep s).length := by
  cases h : splitOnChar sep s with
  | nil => exact absurd h (splitOnChar_ne_nil sep s)
  | cons x t => simp

/-- Helper: splitting on a present character yields at least two parts. -/
theorem two_le_length_splitOnChar (sep : Char) (s : List Char)
    (h : containsChar sep s = true) : 2 ≤ (splitOnChar sep s).length := by
  induction s with
  | nil => simp [containsChar] at h
  | cons c rest ih =>
    simp only [containsChar, Bool.or_eq_true] at h
    simp only [splitOnChar]
    by_cases hcs : (c == sep) = true
    · rw [if_pos hcs]
      have h1 := one_le_length_splitOnChar sep rest
      simp only [List.length_cons]
      omega
    · rw [if_neg hcs]
      rcases h with h | h
      · exact absurd h hcs
      · have h2 := ih h
        cases hsp : splitOnChar sep rest with
        | nil => exact absurd hsp (splitOnChar_ne_nil sep rest)
        | cons x t =>
          rw [hsp] at h2
          simp only [List.length_cons] at h2 ⊢
          omega

/-- Helper: two-character splitting never produces the empty list of
parts. -/
theorem splitOnSeq2_ne_nil (a b : Char) (s : List Char) : splitOnSeq2 a b s ≠ [] := by
  cases s with
  | nil => simp [splitOnSeq2]
  | cons c rest =>
    cases rest with
    | nil => simp [splitOnSeq2]
    | cons d rest2 =>
      simp only [splitOnSeq2]
      split
      · simp
      · split <;> simp

/-- Helper: two-character splitting yields at least one part
(length form). -/
theorem one_le_length_splitOnSeq2 (a b : Char) (s : List Char) :
    1 ≤ (splitOnSeq2 a b s).length := by
  cases h : splitOnSeq2 a b s with
  | nil => exact absurd h (splitOnSeq2_ne_nil a b s)
  | cons x t => simp

/-- Helper: splitting on a present two-character pattern yields at least
two parts. -/
theorem two_le_length_splitOnSeq2 (a b : Char) (s : List Char)
    (h : containsSeq2 a b s = true) : 2 ≤ (splitOnSeq2 a b s).length := by
  induction s with
  | nil => simp [containsSeq2] at h
  | cons c rest ih =>
    cases rest with
    | nil => simp [containsSeq2] at h
    | cons d rest2 =>
      simp only [containsSeq2, Bool.or_eq_true] at h
      simp only [splitOnSeq2]
      by_cases hab : (c == a && d == b) = true
      · rw [if_pos hab]
        have h1 := one_le_length_splitOnSeq2 a b rest2
        simp only [List.length_cons]
        omega
      · rw [if_neg hab]
        rcases h with h | h
        · exact absurd h hab
        · have h2 := ih h
          cases hsp : splitOnSeq2 a b (d :: rest2) with
          | nil => exact absurd hsp (splitOnSeq2_ne_nil a b (d :: rest2))
          | cons x t =>
            rw [hsp] at h2
            simp only [List.length_cons] at h2 ⊢
            omega

namespace WireGuardSettingWidget

/-- Helper: when the endpoint list has at least two parts, the indexing
in `loadConfig` is in bounds. -/
theorem loadEndpointFields_isSome (stored : List Char)
    (h2 : 2 ≤ (endpointList stored).length) :
    loadEndpointFields stored ≠ none := by
  rw [loadEndpointFields]
  cases hl : endpointList stored with
  | nil => rw [hl] at h2; simp at h2
  | cons e0 t =>
    cases t with
    | nil => rw [hl] at h2; simp at h2
    | cons e1 t2 => simp

/-- C9: `loadConfig` reads `endpointList[1]` unconditionally, and that
index is in bounds exactly when the stored endpoint contains the chosen
separator: for every stored endpoint that is empty or has no `':'`
(for example when the endpoint key is absent from the data map, so the
lookup default-constructs an empty string), the access to
`endpointList[1]` is out of bounds (`none`). -/
theorem loadConfig_endpoint_oob (stored : List Char) :
    (loadEndpointFields stored = none ↔ containsChar ':' stored = false) ∧
    ((stored = [] ∨ containsChar ':' stored = false) →
      loadEndpointFields stored = none) := by
  have hmpr : containsChar ':' stored = false → loadEndpointFields stored = none := by
    intro h
    have hs2 : containsSeq2 ']' ':' stored = false := containsSeq2_eq_false _ _ _ h
    have hl : endpointList stored = [stored] := by
      rw [endpointList, if_neg (by rw [hs2]; exact Bool.false_ne_true),
        splitOnChar_of_not_contains _ _ h]
    rw [loadEndpointFields, hl]
  have hmp : loadEndpointFields stored = none → containsChar ':' stored = false := by
    intro hnone
    cases hc : containsChar ':' stored with
    | false => rfl
    | true =>
      have h2 : 2 ≤ (endpointList stored).length := by
        rw [endpointList]
        by_cases hs2 : containsSeq2 ']' ':' stored = true
        · rw [if_pos hs2]
          exact two_le_length_splitOnSeq2 _ _ _ hs2
        · rw [if_neg hs2]
          exact two_le_length_splitOnChar _ _ hc
      exact absurd hnone (loadEndpointFields_isSome stored h2)
  refine ⟨⟨hmp, hmpr⟩, ?_⟩
  rintro (rfl | h)
  · exact hmpr rfl
  · exact hmpr h

/-- Closed witness for `loadConfig_endpoint_oob`: the empty stored
endpoint makes the indexing out of bounds. -/
theorem loadConfig_endpoint_oob_witness :
    loadEndpointFields [] = none :=
  (loadConfig_endpoint_oob []).2 (Or.inl rfl)

/-- Helper: `setProperty` looked up at its own key gives the value when
it is non-empty and nothing when it is empty. -/
theorem setProperty_self (data : NMStringMap) (key value : String) :
    setProperty data key value key = if value = "" then none else some value := by
  by_cases h : value = ""
  · subst h
    rw [if_pos rfl]
    have h0 : String.isEmpty "" = true := rfl
    simp [setProperty, h0]
  · rw [if_neg h]
    have he : value.isEmpty = false := (string_isEmpty_eq_false value).mpr h
    simp [setProperty, he]

/-- Helper: `setProperty` leaves every other key unchanged. -/
theorem setProperty_ne (data : NMStringMap) (key value k : String) (h : k ≠ key) :
    setProperty data key value k = data k := by
  cases he : value.isEmpty <;> simp [setProperty, he, h]

/-- Helper: away from the endpoint key, `settingData` agrees with the
map after the five required `setProperty` calls. -/
theorem settingData_ne_endpoint (stored : NMStringMap) (ui : UiFields) (k : String)
    (h : k ≠ NM_WG_KEY_ENDPOINT) :
    settingData stored ui k = dataAfterRequired stored ui k := by
  have hne : ∀ (data : NMStringMap) (value : String),
      setProperty data NM_WG_KEY_ENDPOINT value k = data k :=
    fun data value => setProperty_ne data _ value k h
  cases hae : ui.endpointAddress.isEmpty with
  | true => simp [settingData, hae]
  | false =>
    cases hc : ui.endpointAddress.contains ':' with
    | true => simp [settingData, hae, hc, hne]
    | false => simp [settingData, hae, hc, hne]

/-- Helper: `dataAfterRequired` at the IPv4 address key. -/
theorem dataAfterRequired_addr4 (stored : NMStringMap) (ui : UiFields) :
    dataAfterRequired stored ui NM_WG_KEY_ADDR_IP4 =
      if ui.addressIPv4 = "" then none else some ui.addressIPv4 := by
  rw [dataAfterRequired,
    setProperty_ne _ NM_WG_KEY_ALLOWED_IPS _ NM_WG_KEY_ADDR_IP4 (by decide),
    setProperty_ne _ NM_WG_KEY_PUBLIC_KEY _ NM_WG_KEY_ADDR_IP4 (by decide),
    setProperty_ne _ NM_WG_KEY_PRIVATE_KEY _ NM_WG_KEY_ADDR_IP4 (by decide),
    setProperty_ne _ NM_WG_KEY_ADDR_IP6 _ NM_WG_KEY_ADDR_IP4 (by decide),
    setProperty_self]

/-- Helper: `dataAfterRequired` at the IPv6 address key. -/
theorem dataAfterRequired_addr6 (stored : NMStringMap) (ui : UiFields) :
    dataAfterRequired stored ui NM_WG_KEY_ADDR_IP6 =
      if ui.addressIPv6 = "" then none else some ui.addressIPv6 := by
  rw [dataAfterRequired,
    setProperty_ne _ NM_WG_KEY_ALLOWED_IPS _ NM_WG_KEY_ADDR_IP6 (by decide),
    setProperty_ne _ NM_WG_KEY_PUBLIC_KEY _ NM_WG_KEY_ADDR_IP6 (by decide),
    setProperty_ne _ NM_WG_KEY_PRIVATE_KEY _ NM_WG_KEY_ADDR_IP6 (by decide),
    setProperty_self]

/-- Helper: `dataAfterRequired` at the private-key key. -/
theorem dataAfterRequired_privateKey (stored : NMStringMap) (ui : UiFields) :
    dataAfterRequired stored ui NM_WG_KEY_PRIVATE_KEY =
      if ui.privateKey = "" then none else some ui.privateKey := by
  rw [dataAfterRequired,
    setProperty_ne _ NM_WG_KEY_ALLOWED_IPS _ NM_WG_KEY_PRIVATE_KEY (by decide),
    setProperty_ne _ NM_WG_KEY_PUBLIC_KEY _ NM_WG_KEY_PRIVATE_KEY (by decide),
    setProperty_self]

/-- Helper: `dataAfterRequired` at the public-key key. -/
theorem dataAfterRequired_publicKey (stored : NMStringMap) (ui : UiFields) :
    dataAfterRequired stored ui NM_WG_KEY_PUBLIC_KEY =
      if ui.publicKey = "" then none else some ui.publicKey := by
  rw [dataAfterRequired,
    setProperty_ne _ NM_WG_KEY_ALLOWED_IPS _ NM_WG_KEY_PUBLIC_KEY (by decide),
    setProperty_self]

/-- Helper: `dataAfterRequired` at the allowed-IPs key. -/
theorem dataAfterRequired_allowedIps (stored : NMStringMap) (ui : UiFields) :
    dataAfterRequired stored ui NM_WG_KEY_ALLOWED_IPS =
      if ui.allowedIPs = "" then none else some ui.allowedIPs := by
  rw [dataAfterRequired, setProperty_self]

/-- C10: after `setting()`, each of the five WireGuard data keys maps to
the corresponding field's text when that text is non-empty and is absent
when the text is empty; every key other than these five and the endpoint
key keeps its stored value. -/
theorem settingData_spec (stored : NMStringMap) (ui : UiFields) :
    (settingData stored ui NM_WG_KEY_ADDR_IP4 =
      if ui.addressIPv4 = "" then none else some ui.addressIPv4) ∧
    (settingData stored ui NM_WG_KEY_ADDR_IP6 =
      if ui.addressIPv6 = "" then none else some ui.addressIPv6) ∧
    (settingData stored ui NM_WG_KEY_PRIVATE_KEY =
      if ui.privateKey = "" then none else some ui.privateKey) ∧
    (settingData stored ui NM_WG_KEY_PUBLIC_KEY =
      if ui.publicKey = "" then none else some ui.publicKey) ∧
    (settingData stored ui NM_WG_KEY_ALLOWED_IPS =
      if ui.allowedIPs = "" then none else some ui.allowedIPs) ∧
    (∀ k, k ≠ NM_WG_KEY_ADDR_IP4 → k ≠ NM_WG_KEY_ADDR_IP6 →
      k ≠ NM_WG_KEY_PRIVATE_KEY → k ≠ NM_WG_KEY_PUBLIC_KEY →
      k ≠ NM_WG_KEY_ALLOWED_IPS → k ≠ NM_WG_KEY_ENDPOINT →
      settingData stored ui k = stored k) := by
  refine ⟨?_, ?_, ?_, ?_, ?_, ?_⟩
  · rw [settingData_ne_endpoint _ _ _ (by decide), dataAfterRequired_addr4]
  · rw [settingData_ne_endpoint _ _ _ (by decide), dataAfterRequired_addr6]
  · rw [settingData_ne_endpoint _ _ _ (by decide), dataAfterRequired_privateKey]
  · rw [settingData_ne_endpoint _ _ _ (by decide), dataAfterRequired_publicKey]
  · rw [settingData_ne_endpoint _ _ _ (by decide), dataAfterRequired_allowedIps]
  · intro k h1 h2 h3 h4 h5 h6
    rw [settingData_ne_endpoint _ _ _ h6, dataAfterRequired,
      setProperty_ne _ NM_WG_KEY_ALLOWED_IPS _ k h5,
      setProperty_ne _ NM_WG_KEY_PUBLIC_KEY _ k h4,
      setProperty_ne _ NM_WG_KEY_PRIVATE_KEY _ k h3,
      setProperty_ne _ NM_WG_KEY_ADDR_IP6 _ k h2,
      setProperty_ne _ NM_WG_KEY_ADDR_IP4 _ k h1]

/-- Closed witness for `settingData_spec`: a foreign key (`"mtu"`) keeps
its stored value, discharging the frame hypotheses at a concrete key. -/
theorem settingData_spec_witness :
    settingData (fun _ => some "1420") ⟨"", "", "", "", "", "", ""⟩ "mtu" = some "1420" :=
  (settingData_spec (fun _ => some "1420") ⟨"", "", "", "", "", "", ""⟩).2.2.2.2.2
    "mtu" (by decide) (by decide) (by decide) (by decide) (by decide) (by decide)

end WireGuardSettingWidget

end PlasmaNM
